import Mathlib

/-!
Verification of the THORChain Ledger host-side driver (`src/index.js`).

The JavaScript source is shallowly embedded: byte buffers become `List Nat`
(one `Nat` per byte), `Buffer.slice` becomes `List.take` / `List.drop`
(both clamp out-of-range indices exactly as JS `slice` does), thrown
exceptions become `Except.error`, and asynchronous device exchanges become
explicit parameters carrying the device's response.  Code imported from
`common.js` / `helperV2.js` (absent from the sources) is modelled from the
specification, and is marked as such in its doc comment.
-/

/-- ASCII decoding of a byte list, as JS `buffer.toString("ascii")` /
`toString()` on the ASCII payloads handled by this driver. -/
def asciiToString (bytes : List Nat) : String :=
  String.mk (bytes.map Char.ofNat)

/-- One hexadecimal digit (lower case), as used by JS `toString("hex")`. -/
def hexDigit (n : Nat) : Char :=
  if n < 10 then Char.ofNat (48 + n) else Char.ofNat (87 + n)

/-- Hex encoding of a byte list, as JS `buffer.toString("hex")`. -/
def toHexString (bytes : List Nat) : String :=
  String.mk (bytes.flatMap (fun b => [hexDigit (b / 16), hexDigit (b % 16)]))

/-- Modelled from the spec: `common.js` is not in the sources; the spec fixes
"success is 0x9000 (aliased as NoError)". -/
def ERROR_CODE_NoError : Nat := 0x9000

/-- Modelled from the spec: `common.js` is not in the sources; the spec fixes
the maximum chunk payload size as a protocol constant.  The standard Ledger
chunk size 250 is used; all theorems only rely on its positivity. -/
def CHUNK_SIZE : Nat := 250

/-- Modelled from the spec: `common.js` is not in the sources.  Status-code
table: "numeric code → message; must include the device's protocol-defined
codes and fall back to `Unknown error code: 0x<hex>`". -/
def errorCodeToString (code : Nat) : String :=
  if code = 0x9000 then "No errors"
  else if code = 0x6400 then "Execution Error"
  else if code = 0x6986 then "Transaction rejected"
  else if code = 0x6985 then "Conditions not satisfied"
  else "Unknown error code: 0x" ++ toHexString [code / 256, code % 256]

/-- `serializeHRP` (`index.js` lines 48–56): `null`/short/long inputs throw
"Invalid HRP"; otherwise the result is `[length byte][ASCII bytes]`. -/
def serializeHRP (hrp : Option String) : Except String (List Nat) :=
  match hrp with
  | none => Except.error "Invalid HRP"
  | some h =>
    if h.length < 3 ∨ h.length > 83 then Except.error "Invalid HRP"
    else Except.ok (h.length :: h.data.map Char.toNat)

/-- `getBech32FromPK` (`index.js` lines 58–65).  The SHA-256, RIPEMD-160 and
bech32 primitives are external npm libraries (outside this repository), so the
embedding takes them as parameters; the repository's own code is the length
guard and the composition. -/
def getBech32FromPK (sha256 ripemd160 : List Nat → List Nat)
    (toWords : List Nat → List Nat) (bech32encode : String → List Nat → String)
    (hrp : String) (pk : List Nat) : Except String String :=
  if pk.length ≠ 33 then Except.error "expected compressed public key [31 bytes]"
  else Except.ok (bech32encode hrp (toWords (ripemd160 (sha256 pk))))

/-- Device answer to the version query (`getVersion` in the missing
`common.js`); field layout follows the spec's `VersionInfo` record.  The
driver code under verification only inspects `return_code` and `major`. -/
structure VersionResponse where
  return_code : Nat
  error_message : String
  test_mode : Bool
  major : Nat
  minor : Nat
  patch : Nat
  device_locked : Bool
deriving Repr, DecidableEq

/-- Modelled from the spec: `serializePathv2` lives in the missing
`helperV2.js`; the spec fixes "4 bytes per path level, in path order"
(fixed-width little-endian words). -/
def serializePathv2 (path : List Nat) : List Nat :=
  path.flatMap (fun lvl => [lvl % 256, lvl / 256 % 256, lvl / 65536 % 256, lvl / 16777216 % 256])

/-- `serializePath` in `index.js` either returns a serialized-path buffer or
returns (not throws) a structured `{return_code, error_message}` object; this
sum type mirrors those two result shapes. -/
inductive SerializeResult where
  | buf (b : List Nat)
  | err (return_code : Nat) (error_message : String)
deriving Repr, DecidableEq

/-- `serializePath` (`index.js` lines 67–83).  The awaited result of the
version query is the `versionResponse` parameter; `throw this.versionResponse`
becomes `Except.error`. -/
def serializePath (versionResponse : VersionResponse) (path : List Nat) :
    Except VersionResponse SerializeResult :=
  if versionResponse.return_code ≠ ERROR_CODE_NoError then
    Except.error versionResponse
  else
    match versionResponse.major with
    | 2 => Except.ok (SerializeResult.buf (serializePathv2 path))
    | _ => Except.ok (SerializeResult.err 0x6400 "App Version is not supported")

/-- The message-slicing loop of `signGetChunks` (`index.js` lines 92–98):
`for (let i = 0; i < buffer.length; i += CHUNK_SIZE) chunks.push(buffer.slice(i, i + CHUNK_SIZE))`
(the `if (i > buffer.length)` guard inside the loop is never true, and JS
`slice` clamps the end bound, exactly as `take` does). -/
def messageChunks (buffer : List Nat) (i : Nat) : List (List Nat) :=
  if i < buffer.length then
    ((buffer.drop i).take CHUNK_SIZE) :: messageChunks buffer (i + CHUNK_SIZE)
  else []
termination_by buffer.length - i
decreasing_by simp only [CHUNK_SIZE]; omega

/-- `signGetChunks` (`index.js` lines 85–101): frame 0 is the awaited
`serializePath` result, frames 1.. are the message sliced by `messageChunks`. -/
def signGetChunks (serializedPath : List Nat) (message : List Nat) : List (List Nat) :=
  serializedPath :: messageChunks message 0

/-- Response of the per-version chunk-submission primitive
(`signSendChunkv2` in the missing `helperV2.js`).  Modelled from the spec:
the primitive reports the device's status as a normal result value
`{return_code, error_message, signature}` (§4.4, §7). -/
structure SignChunkResp where
  return_code : Nat
  error_message : String
  signature : Option (List Nat)
deriving Repr, DecidableEq

/-- The `{return_code, error_message, signature}` record returned by `sign`. -/
structure SignResult where
  return_code : Nat
  error_message : String
  signature : Option (List Nat)
deriving Repr, DecidableEq

/-- The chunk loop of `sign` (`index.js` lines 309–315): for `i = 1` to
`chunks.length - 1` submit chunk `1 + i`, overwrite `result`, and `break` on
the first non-success return code.  `dev idx chunk` is the device's response
to submitting `chunk` as 1-based index `idx`; the returned list records the
1-based indices submitted by the loop, in order. -/
def signLoop (dev : Nat → List Nat → SignChunkResp) (chunks : List (List Nat))
    (i : Nat) (acc : SignResult) (sent : List Nat) : SignResult × List Nat :=
  if i < chunks.length then
    let r := dev (1 + i) (chunks.getD i [])
    let acc' : SignResult := ⟨r.return_code, r.error_message, r.signature⟩
    if r.return_code ≠ ERROR_CODE_NoError then (acc', sent ++ [1 + i])
    else signLoop dev chunks (i + 1) acc' (sent ++ [1 + i])
  else (acc, sent)
termination_by chunks.length - i

/-- The chunk orchestration of `sign` (`index.js` lines 300–325): submit
chunk 1 (the path chunk), initialize `result` from its response with
`signature: null`, then run the loop over the remaining chunks.  Returns the
final `{return_code, error_message, signature}` together with the 1-based
indices of all submitted chunks, in submission order. -/
def signRun (dev : Nat → List Nat → SignChunkResp) (chunks : List (List Nat)) :
    SignResult × List Nat :=
  let r0 := dev 1 (chunks.getD 0 [])
  signLoop dev chunks 1 ⟨r0.return_code, r0.error_message, none⟩ [1]

/-- Record returned by `appInfo` (`index.js` lines 142–158). -/
structure AppInfoResult where
  return_code : Nat
  error_message : String
  appName : String
  appVersion : String
  flagLen : Nat
  flagsValue : Nat
  flag_recovery : Bool
  flag_signed_mcu_code : Bool
  flag_onboarded : Bool
  flag_pin_validated : Bool
deriving Repr, DecidableEq

/-- `appInfo` response handler (`index.js` lines 112–160).  `returnCode` is
always decoded from the trailing two bytes; when the format-tag byte is not 1
the locals keep their defaults (`appName`/`appVersion` = "err", `flagLen` =
`flagsValue` = 0).  The code also assigns `result.return_code = 0x9001` and a
"response format ID not recognized" message in that branch, but `result` is
discarded: the returned object literal is built from `returnCode` alone, so
that assignment has no observable effect and does not appear here. -/
def appInfo (response : List Nat) : AppInfoResult :=
  let errorCodeData := response.drop (response.length - 2)
  let returnCode := errorCodeData.getD 0 0 * 256 + errorCodeData.getD 1 0
  if response.getD 0 0 ≠ 1 then
    { return_code := returnCode
      error_message := errorCodeToString returnCode
      appName := "err", appVersion := "err", flagLen := 0, flagsValue := 0
      flag_recovery := false, flag_signed_mcu_code := false
      flag_onboarded := false, flag_pin_validated := false }
  else
    let appNameLen := response.getD 1 0
    let appName := asciiToString ((response.drop 2).take appNameLen)
    let idx := 2 + appNameLen
    let appVersionLen := response.getD idx 0
    let idx := idx + 1
    let appVersion := asciiToString ((response.drop idx).take appVersionLen)
    let idx := idx + appVersionLen
    let appFlagsLen := response.getD idx 0
    let idx := idx + 1
    let flagsValue := response.getD idx 0
    { return_code := returnCode
      error_message := errorCodeToString returnCode
      appName := appName, appVersion := appVersion
      flagLen := appFlagsLen, flagsValue := flagsValue
      flag_recovery := flagsValue &&& 1 ≠ 0
      flag_signed_mcu_code := flagsValue &&& 2 ≠ 0
      flag_onboarded := flagsValue &&& 4 ≠ 0
      flag_pin_validated := flagsValue &&& 128 ≠ 0 }

/-- `deviceInfo` returns one of two object shapes (`index.js` lines 169–206):
the 0x6e00 "Dashboard" short-circuit, or the fully parsed record. -/
inductive DeviceInfoResult where
  | dashboardOnly (return_code : Nat) (error_message : String)
  | info (return_code : Nat) (error_message : String)
      (targetId seVersion flag mcuVersion : String)
deriving Repr, DecidableEq

/-- `deviceInfo` response handler (`index.js` lines 162–208).  The running
cursor `pos` advances over `[4-byte targetId][len][seVersion][len][flags]
[len][mcuVersion]`; JS `tmp[mcuVersionLen - 1] === 0` reads inside the sliced
field, so it strips the trailing byte only when that index exists and holds 0
(`List.get?` returning `some 0`). -/
def deviceInfo (response : List Nat) : DeviceInfoResult :=
  let errorCodeData := response.drop (response.length - 2)
  let returnCode := errorCodeData.getD 0 0 * 256 + errorCodeData.getD 1 0
  if returnCode = 0x6e00 then
    DeviceInfoResult.dashboardOnly returnCode "This command is only available in the Dashboard"
  else
    let targetId := toHexString (response.take 4)
    let pos := 4
    let secureElementVersionLen := response.getD pos 0
    let pos := pos + 1
    let seVersion := asciiToString ((response.drop pos).take secureElementVersionLen)
    let pos := pos + secureElementVersionLen
    let flagsLen := response.getD pos 0
    let pos := pos + 1
    let flag := toHexString ((response.drop pos).take flagsLen)
    let pos := pos + flagsLen
    let mcuVersionLen := response.getD pos 0
    let pos := pos + 1
    let tmp := (response.drop pos).take mcuVersionLen
    let tmp' := match tmp.get? (mcuVersionLen - 1) with
      | some 0 => (response.drop pos).take (mcuVersionLen - 1)
      | _ => tmp
    DeviceInfoResult.info returnCode (errorCodeToString returnCode)
      targetId seVersion flag (asciiToString tmp')

/-- Record returned by `getAddressAndPubKey` / `showAddressAndPubKey`. -/
structure AddressResult where
  bech32_address : String
  compressed_pk : List Nat
  return_code : Nat
  error_message : String
deriving Repr, DecidableEq

/-- Response handler inside `getAddressAndPubKey` (`index.js` lines 237–250):
`compressedPk = response.slice(0, 33)`, `bech32Address =
response.slice(33, -2).toString()`, `returnCode` from the last two bytes. -/
def getAddrDecodeResponse (response : List Nat) : AddressResult :=
  let errorCodeData := response.drop (response.length - 2)
  let returnCode := errorCodeData.getD 0 0 * 256 + errorCodeData.getD 1 0
  { bech32_address := asciiToString ((response.take (response.length - 2)).drop 33)
    compressed_pk := response.take 33
    return_code := returnCode
    error_message := errorCodeToString returnCode }

/-- Response handler inside `showAddressAndPubKey` (`index.js` lines 267–279);
the source duplicates the `getAddressAndPubKey` handler verbatim. -/
def showAddrDecodeResponse (response : List Nat) : AddressResult :=
  let errorCodeData := response.drop (response.length - 2)
  let returnCode := errorCodeData.getD 0 0 * 256 + errorCodeData.getD 1 0
  { bech32_address := asciiToString ((response.take (response.length - 2)).drop 33)
    compressed_pk := response.take 33
    return_code := returnCode
    error_message := errorCodeToString returnCode }

/-- Modelled from the spec: `common.js` is not in the sources; the application
class byte for the THORChain app (spec §4.1, §6). -/
def CLA : Nat := 0x55

/-- Modelled from the spec: `common.js` is not in the sources; instruction
code for `GET_ADDR_SECP256K1` (spec §6). -/
def INS_GET_ADDR_SECP256K1 : Nat := 0x04

/-- Modelled from the spec: `common.js` is not in the sources; the
`P1_VALUES.ONLY_RETRIEVE` parameter byte selecting silent retrieval. -/
def P1_ONLY_RETRIEVE : Nat := 0

/-- Modelled from the spec: `common.js` is not in the sources; the
`P1_VALUES.SHOW_ADDRESS_IN_DEVICE` parameter byte requesting on-device
display with user confirmation. -/
def P1_SHOW_ADDRESS_IN_DEVICE : Nat := 1

/-- One APDU request as handed to `transport.send(cla, ins, p1, p2, data,
acceptableStatus)`. -/
structure APDURequest where
  cla : Nat
  ins : Nat
  p1 : Nat
  p2 : Nat
  data : List Nat
  acceptableStatus : List Nat
deriving Repr, DecidableEq

/-- The request built by `getAddressAndPubKey` (`index.js` lines 230–256)
once `serializePath` has resolved to `serializedPath`:
`data = serializeHRP(hrp) ++ serializedPath`, `p1 = ONLY_RETRIEVE`; a
`serializeHRP` throw propagates as an error. -/
def getAddressRequest (hrp : Option String) (serializedPath : List Nat) :
    Except String APDURequest :=
  (serializeHRP hrp).map (fun hrpBytes =>
    { cla := CLA, ins := INS_GET_ADDR_SECP256K1, p1 := P1_ONLY_RETRIEVE, p2 := 0
      data := hrpBytes ++ serializedPath, acceptableStatus := [ERROR_CODE_NoError] })

/-- The request built by `showAddressAndPubKey` (`index.js` lines 258–286):
identical construction with `p1 = SHOW_ADDRESS_IN_DEVICE`. -/
def showAddressRequest (hrp : Option String) (serializedPath : List Nat) :
    Except String APDURequest :=
  (serializeHRP hrp).map (fun hrpBytes =>
    { cla := CLA, ins := INS_GET_ADDR_SECP256K1, p1 := P1_SHOW_ADDRESS_IN_DEVICE, p2 := 0
      data := hrpBytes ++ serializedPath, acceptableStatus := [ERROR_CODE_NoError] })

theorem messageChunks_flatten (buffer : List Nat) (i : Nat) :
    (messageChunks buffer i).flatten = buffer.drop i := by
  rw [messageChunks]
  split
  · rw [List.flatten_cons, messageChunks_flatten buffer (i + CHUNK_SIZE)]
    rw [← List.drop_drop]
    exact List.take_append_drop CHUNK_SIZE (buffer.drop i)
  · rename_i h
    exact (List.drop_eq_nil_of_le (by omega)).symm
termination_by buffer.length - i
decreasing_by simp only [CHUNK_SIZE]; omega

theorem messageChunks_length (buffer : List Nat) (i : Nat) :
    (messageChunks buffer i).length = (buffer.length - i + CHUNK_SIZE - 1) / CHUNK_SIZE := by
  rw [messageChunks]
  split
  · rename_i h
    rw [List.length_cons, messageChunks_length buffer (i + CHUNK_SIZE)]
    simp only [CHUNK_SIZE] at *
    omega
  · rename_i h
    simp only [List.length_nil, CHUNK_SIZE] at *
    omega
termination_by buffer.length - i
decreasing_by simp only [CHUNK_SIZE]; omega

theorem messageChunks_getD_length (buffer : List Nat) (i j : Nat)
    (hj : j + 1 < (messageChunks buffer i).length) :
    ((messageChunks buffer i).getD j []).length = CHUNK_SIZE := by
  induction j generalizing i with
  | zero =>
    have hlen := messageChunks_length buffer i
    have hlt : i + CHUNK_SIZE < buffer.length := by
      rw [hlen] at hj
      simp only [CHUNK_SIZE] at *
      omega
    rw [messageChunks, if_pos (by simp only [CHUNK_SIZE] at *; omega)]
    rw [List.getD_cons_zero, List.length_take, List.length_drop]
    omega
  | succ j ih =>
    have hlen := messageChunks_length buffer i
    have hlen2 := messageChunks_length buffer (i + CHUNK_SIZE)
    have hlt : i < buffer.length := by
      rw [hlen] at hj
      simp only [CHUNK_SIZE] at *
      omega
    rw [messageChunks, if_pos hlt, List.getD_cons_succ]
    apply ih
    rw [hlen2]
    rw [hlen] at hj
    simp only [CHUNK_SIZE] at *
    omega

theorem messageChunks_mem_length_le (buffer : List Nat) (i : Nat) (c : List Nat)
    (hc : c ∈ messageChunks buffer i) : c.length ≤ CHUNK_SIZE := by
  rw [messageChunks] at hc
  split at hc
  · rcases List.mem_cons.mp hc with h | h
    · subst h
      exact List.length_take_le _ _
    · exact messageChunks_mem_length_le buffer (i + CHUNK_SIZE) c h
  · cases hc
termination_by buffer.length - i
decreasing_by simp only [CHUNK_SIZE]; omega

/-- C2: for a message of byte length `L`, `signGetChunks` returns exactly
`1 + ⌈L / CHUNK_SIZE⌉` frames; frame 0 is exactly the `serializePath` result
(so it carries no message bytes); the concatenation of frames 1.. is the
original message byte-for-byte; every frame after frame 0 except possibly the
last has length exactly `CHUNK_SIZE`, and none exceeds it (no padding). -/
theorem C2_signGetChunks_chunking (serializedPath message : List Nat) :
    (signGetChunks serializedPath message).length
        = 1 + (message.length + CHUNK_SIZE - 1) / CHUNK_SIZE
    ∧ (signGetChunks serializedPath message).getD 0 [] = serializedPath
    ∧ ((signGetChunks serializedPath message).drop 1).flatten = message
    ∧ (∀ j, j + 1 < ((signGetChunks serializedPath message).drop 1).length →
        (((signGetChunks serializedPath message).drop 1).getD j []).length = CHUNK_SIZE)
    ∧ (∀ c ∈ (signGetChunks serializedPath message).drop 1, c.length ≤ CHUNK_SIZE) := by
  refine ⟨?_, rfl, ?_, ?_, ?_⟩
  · show (serializedPath :: messageChunks message 0).length = _
    rw [List.length_cons, messageChunks_length]
    simp only [Nat.sub_zero]
    omega
  · show (messageChunks message 0).flatten = message
    rw [messageChunks_flatten, List.drop_zero]
  · intro j hj
    exact messageChunks_getD_length message 0 j hj
  · intro c hc
    exact messageChunks_mem_length_le message 0 c hc

theorem C2_signGetChunks_chunking_witness :
    (signGetChunks [9] (List.replicate 501 7)).length = 4
    ∧ (((signGetChunks [9] (List.replicate 501 7)).drop 1).getD 1 []).length = CHUNK_SIZE := by
  obtain ⟨h1, _h2, _h3, h4, _h5⟩ := C2_signGetChunks_chunking [9] (List.replicate 501 7)
  refine ⟨?_, ?_⟩
  · rw [h1]
    simp only [List.length_replicate, CHUNK_SIZE]
  · apply h4
    rw [List.length_drop, h1]
    simp only [List.length_replicate, CHUNK_SIZE]
    omega

/-- C5: `serializePath` first obtains the device's version response; a
non-success version status is propagated as a failure (a throw) without
serializing, and a success status with an unsupported major version yields a
returned (not thrown) structured error `{0x6400, "App Version is not
supported"}`. -/
theorem C5_serializePath_version_gate (vr : VersionResponse) (path : List Nat) :
    (vr.return_code ≠ ERROR_CODE_NoError → serializePath vr path = Except.error vr)
    ∧ (vr.return_code = ERROR_CODE_NoError → vr.major ≠ 2 →
        serializePath vr path
          = Except.ok (SerializeResult.err 0x6400 "App Version is not supported")) := by
  constructor
  · intro h
    rw [serializePath, if_pos h]
  · intro h hmaj
    rw [serializePath, if_neg (by simp [h])]
    split
    · rename_i hm
      exact absurd hm hmaj
    · rfl

theorem C5_serializePath_version_gate_witness :
    serializePath ⟨0x6986, "Transaction rejected", false, 2, 0, 14, false⟩ [44]
        = Except.error ⟨0x6986, "Transaction rejected", false, 2, 0, 14, false⟩
    ∧ serializePath ⟨0x9000, "No errors", false, 1, 0, 2, false⟩ [44]
        = Except.ok (SerializeResult.err 0x6400 "App Version is not supported") :=
  ⟨(C5_serializePath_version_gate ⟨0x6986, "Transaction rejected", false, 2, 0, 14, false⟩ [44]).1
      (by decide),
   (C5_serializePath_version_gate ⟨0x9000, "No errors", false, 1, 0, 2, false⟩ [44]).2
      (by decide) (by decide)⟩

/-- C6: for every string of length in `[3, 83]`, `serializeHRP` returns the
buffer `[length byte][ASCII bytes]`; for a null input or a length outside
`[3, 83]` it fails with the invalid-argument error instead of returning a
buffer. -/
theorem C6_serializeHRP_bounds (h : String) :
    (3 ≤ h.length → h.length ≤ 83 →
        serializeHRP (some h) = Except.ok (h.length :: h.data.map Char.toNat))
    ∧ (h.length < 3 ∨ h.length > 83 → serializeHRP (some h) = Except.error "Invalid HRP")
    ∧ serializeHRP none = Except.error "Invalid HRP" := by
  refine ⟨?_, ?_, rfl⟩
  · intro h3 h83
    rw [serializeHRP, if_neg (by omega)]
  · intro hout
    rw [serializeHRP, if_pos hout]

theorem C6_serializeHRP_bounds_witness :
    serializeHRP (some "thor") = Except.ok [4, 116, 104, 111, 114]
    ∧ serializeHRP (some "ab") = Except.error "Invalid HRP" :=
  ⟨((C6_serializeHRP_bounds "thor").1 (by decide) (by decide)).trans (by rfl),
   (C6_serializeHRP_bounds "ab").2.1 (by decide)⟩

/-- C10: `getBech32FromPK` rejects every public key whose length is not
exactly 33 bytes with an error whose message nevertheless says "31 bytes",
and for every 33-byte key returns the bech32 encoding (under the given HRP)
of the RIPEMD-160 hash of the SHA-256 hash of the key, the hash and encoding
primitives being the external libraries passed as parameters. -/
theorem C10_getBech32FromPK_guard (sha256 ripemd160 : List Nat → List Nat)
    (toWords : List Nat → List Nat) (bech32encode : String → List Nat → String)
    (hrp : String) (pk : List Nat) :
    (pk.length ≠ 33 →
        getBech32FromPK sha256 ripemd160 toWords bech32encode hrp pk
          = Except.error "expected compressed public key [31 bytes]")
    ∧ (pk.length = 33 →
        getBech32FromPK sha256 ripemd160 toWords bech32encode hrp pk
          = Except.ok (bech32encode hrp (toWords (ripemd160 (sha256 pk))))) := by
  constructor
  · intro hne
    rw [getBech32FromPK, if_pos hne]
  · intro heq
    rw [getBech32FromPK, if_neg (by omega)]

theorem C10_getBech32FromPK_guard_witness :
    getBech32FromPK id id id (fun h l => h ++ asciiToString l) "thor" (List.replicate 32 3)
        = Except.error "expected compressed public key [31 bytes]"
    ∧ getBech32FromPK id id id (fun h l => h ++ asciiToString l) "thor" (List.replicate 33 97)
        = Except.ok ("thor" ++ asciiToString (List.replicate 33 97)) :=
  ⟨(C10_getBech32FromPK_guard id id id (fun h l => h ++ asciiToString l) "thor"
      (List.replicate 32 3)).1 (by decide),
   (C10_getBech32FromPK_guard id id id (fun h l => h ++ asciiToString l) "thor"
      (List.replicate 33 97)).2 (by decide)⟩

theorem signLoop_stops_at_first_fail (dev : Nat → List Nat → SignChunkResp)
    (chunks : List (List Nat)) (k : Nat) (hk : k ≤ chunks.length)
    (hsucc : ∀ j, 1 ≤ j → j < k →
        (dev j (chunks.getD (j - 1) [])).return_code = ERROR_CODE_NoError)
    (hfail : (dev k (chunks.getD (k - 1) [])).return_code ≠ ERROR_CODE_NoError)
    (i : Nat) (acc : SignResult) (sent : List Nat) (hik : i < k) :
    signLoop dev chunks i acc sent =
      (⟨(dev k (chunks.getD (k - 1) [])).return_code,
        (dev k (chunks.getD (k - 1) [])).error_message,
        (dev k (chunks.getD (k - 1) [])).signature⟩,
       sent ++ List.range' (i + 1) (k - i)) := by
  rw [signLoop, if_pos (by omega)]
  by_cases hstep : 1 + i = k
  · have hidx : i = k - 1 := by omega
    subst hidx
    rw [hstep, if_pos hfail]
    have hr : k - (k - 1) = 1 := by omega
    rw [hr, List.range'_one]
    have : k - 1 + 1 = k := by omega
    rw [this]
  · have hs := hsucc (1 + i) (by omega) (by omega)
    have hidx : 1 + i - 1 = i := by omega
    rw [hidx] at hs
    rw [if_neg (not_not_intro hs)]
    rw [signLoop_stops_at_first_fail dev chunks k hk hsucc hfail (i + 1) _ _ (by omega)]
    rw [List.append_assoc]
    have hrange : List.range' (i + 1) (k - i) = (i + 1) :: List.range' (i + 2) (k - (i + 1)) := by
      have h1 : k - i = (k - (i + 1)) + 1 := by omega
      rw [h1, List.range'_succ]
    rw [hrange]
    have h1i : 1 + i = i + 1 := Nat.add_comm 1 i
    rw [h1i]
    rfl
termination_by k - i

/-- C1 (amended): for every chunk sequence and every device behaviour, if the
first non-success response occurs at chunk position `k ≥ 2`, the `sign`
orchestration submits exactly chunks `1, 2, …, k` in order — no later chunk
is ever submitted — and the final result carries chunk `k`'s return code,
error message and signature field.  (A non-success response to the first
(path) chunk does not stop the sequence; see the counterexample.) -/
theorem C1_sign_stops_at_first_fail_from_second (dev : Nat → List Nat → SignChunkResp)
    (chunks : List (List Nat)) (k : Nat) (hk2 : 2 ≤ k) (hkn : k ≤ chunks.length)
    (hsucc : ∀ j, 1 ≤ j → j < k →
        (dev j (chunks.getD (j - 1) [])).return_code = ERROR_CODE_NoError)
    (hfail : (dev k (chunks.getD (k - 1) [])).return_code ≠ ERROR_CODE_NoError) :
    signRun dev chunks =
      (⟨(dev k (chunks.getD (k - 1) [])).return_code,
        (dev k (chunks.getD (k - 1) [])).error_message,
        (dev k (chunks.getD (k - 1) [])).signature⟩,
       List.range' 1 k) := by
  rw [signRun, signLoop_stops_at_first_fail dev chunks k hkn hsucc hfail 1 _ _ (by omega)]
  have hrange : List.range' 1 k = 1 :: List.range' 2 (k - 1) := by
    have h1 : k = (k - 1) + 1 := by omega
    rw [h1, List.range'_succ]
    rfl
  rw [hrange]
  rfl

theorem C1_sign_stops_at_first_fail_from_second_witness :
    signRun
      (fun idx _ => if idx = 2 then ⟨0x6986, "Transaction rejected", none⟩
                    else ⟨0x9000, "No errors", some [5]⟩)
      [[1], [2], [3]]
      = (⟨0x6986, "Transaction rejected", none⟩, [1, 2]) := by
  have h := C1_sign_stops_at_first_fail_from_second
    (fun idx _ => if idx = 2 then ⟨0x6986, "Transaction rejected", none⟩
                  else ⟨0x9000, "No errors", some [5]⟩)
    [[1], [2], [3]] 2 (by decide) (by decide)
    (fun j h1 h2 => by
      have : j = 1 := by omega
      subst this
      decide)
    (by decide)
  exact h.trans (by decide)

/-- C1 (counterexample): the claim fails at the first (path) chunk.  With two
chunks and a device whose response to chunk 1 reports the non-success code
0x6984, `sign` still submits chunk 2 (the submission trace is `[1, 2]`, not
`[1]`), and the final result carries chunk 2's success code 0x9000 rather
than chunk 1's return code, error message and signature field. -/
theorem C1_sign_first_chunk_failure_counterexample :
    signRun
      (fun idx _ => if idx = 1 then ⟨0x6984, "Data is invalid", none⟩
                    else ⟨0x9000, "No errors", some [7]⟩)
      [[1], [2]]
      = (⟨0x9000, "No errors", some [7]⟩, [1, 2])
    ∧ (0x6984 : Nat) ≠ ERROR_CODE_NoError := by
  constructor
  · simp [signRun, signLoop]
  · decide

/-- C3 (code-bug evidence): on an `appInfo` response whose format-tag byte is
0 (≠ 1) and whose trailing status word is 0x9000, the decoded result carries
the trailing status word 0x9000 and its table message — not the dedicated
0x9001 "response format ID not recognized" error the rejection branch
computes and then drops — while `appName`/`appVersion` are the "err"
placeholders. -/
theorem C3_appInfo_format_reject_drops_error :
    appInfo [0, 0x90, 0x00] =
      { return_code := 0x9000, error_message := errorCodeToString 0x9000
        appName := "err", appVersion := "err", flagLen := 0, flagsValue := 0
        flag_recovery := false, flag_signed_mcu_code := false
        flag_onboarded := false, flag_pin_validated := false }
    ∧ (appInfo [0, 0x90, 0x00]).return_code ≠ 0x9001 := by
  constructor
  · decide
  · decide

/-- C4 (counterexample): decoding the appInfo buffer with format byte 1,
name "abc", version "1.0" and flags byte 0x85 gives `flag_onboarded = true`
(0x85 &&& 0x04 = 4 ≠ 0), contradicting the claim's `flag_onboarded = false`. -/
theorem C4_appInfo_flags_counterexample :
    (appInfo [1, 3, 97, 98, 99, 3, 49, 46, 48, 1, 0x85, 0x90, 0x00]).flag_onboarded = true := by
  decide

/-- C4 (amended): for the appInfo buffer with format byte 1, name "abc",
version "1.0" and flags byte 0x85, the decoded record has
`flag_recovery = true`, `flag_signed_mcu_code = false`,
`flag_onboarded = true`, `flag_pin_validated = true`, the four flags being
derived by the bitmask tests 0x01, 0x02, 0x04, 0x80 on the flags byte. -/
theorem C4_appInfo_flags_decode :
    appInfo [1, 3, 97, 98, 99, 3, 49, 46, 48, 1, 0x85, 0x90, 0x00] =
      { return_code := 0x9000, error_message := errorCodeToString 0x9000
        appName := "abc", appVersion := "1.0", flagLen := 1, flagsValue := 0x85
        flag_recovery := true, flag_signed_mcu_code := false
        flag_onboarded := true, flag_pin_validated := true }
    ∧ (0x85 &&& 0x01 ≠ 0) ∧ (0x85 &&& 0x02 = 0)
    ∧ (0x85 &&& 0x04 ≠ 0) ∧ (0x85 &&& 0x80 ≠ 0) := by
  decide

/-- C8: for every response of the form `[33-byte compressed public key]
[ASCII bech32 address][2-byte big-endian status]`, the address decode returns
the first 33 bytes as `compressed_pk`, the ASCII decoding of everything
between byte 33 and the last two bytes as `bech32_address`, and
`byte[-2] * 256 + byte[-1]` as `return_code`. -/
theorem C8_address_decode (pk addr : List Nat) (s1 s2 : Nat) (hpk : pk.length = 33) :
    getAddrDecodeResponse (pk ++ addr ++ [s1, s2]) =
      { bech32_address := asciiToString addr
        compressed_pk := pk
        return_code := s1 * 256 + s2
        error_message := errorCodeToString (s1 * 256 + s2) } := by
  have hlen : (pk ++ addr ++ [s1, s2]).length = (pk ++ addr).length + 2 := by
    simp
    omega
  have hdrop : (pk ++ addr ++ [s1, s2]).drop ((pk ++ addr ++ [s1, s2]).length - 2) = [s1, s2] := by
    rw [hlen, Nat.add_sub_cancel]
    exact List.drop_left _ _
  have htake : (pk ++ addr ++ [s1, s2]).take ((pk ++ addr ++ [s1, s2]).length - 2) = pk ++ addr := by
    rw [hlen, Nat.add_sub_cancel]
    exact List.take_left _ _
  simp only [getAddrDecodeResponse]
  rw [hdrop, htake, List.drop_left' hpk, List.append_assoc, List.take_left' hpk]
  rfl

theorem C8_address_decode_witness :
    getAddrDecodeResponse
        (List.replicate 33 0xAA ++ [116, 116, 104, 111, 114, 49, 120, 121, 122] ++ [0x90, 0x00]) =
      { bech32_address := "tthor1xyz", compressed_pk := List.replicate 33 0xAA
        return_code := 0x9000, error_message := errorCodeToString 0x9000 } := by
  have h := C8_address_decode (List.replicate 33 0xAA)
    [116, 116, 104, 111, 114, 49, 120, 121, 122] 0x90 0x00 (by decide)
  exact h.trans (by rfl)

/-- C9: `getAddressAndPubKey` and `showAddressAndPubKey` build identical
requests — same class, instruction, `p2`, payload and acceptable status set —
differing only in the `p1` parameter byte (silent retrieval vs on-device
display), and decode every transport response identically. -/
theorem C9_get_show_address_differ_only_in_p1 (hrp : Option String) (serializedPath : List Nat) :
    getAddressRequest hrp serializedPath
        = Except.map (fun r => { r with p1 := P1_ONLY_RETRIEVE })
            (showAddressRequest hrp serializedPath)
    ∧ showAddressRequest hrp serializedPath
        = Except.map (fun r => { r with p1 := P1_SHOW_ADDRESS_IN_DEVICE })
            (getAddressRequest hrp serializedPath)
    ∧ (∀ response, getAddrDecodeResponse response = showAddrDecodeResponse response)
    ∧ P1_ONLY_RETRIEVE ≠ P1_SHOW_ADDRESS_IN_DEVICE := by
  refine ⟨?_, ?_, fun response => rfl, by decide⟩
  · rw [getAddressRequest, showAddressRequest]
    cases serializeHRP hrp <;> rfl
  · rw [getAddressRequest, showAddressRequest]
    cases serializeHRP hrp <;> rfl

theorem getD_append_length (a b : List Nat) (x d n : Nat) (h : a.length = n) :
    (a ++ x :: b).getD n d = x := by
  subst h
  rw [List.getD_eq_getElem?_getD, List.getElem?_append_right (le_refl a.length)]
  simp

/-- C7: in `deviceInfo` decoding of a well-formed response, an MCU-version
field whose last byte is zero has exactly that single trailing zero byte
stripped from the decoded `mcuVersion` string; a field whose last byte is
non-zero (or an empty field) is decoded verbatim. -/
theorem C7_deviceInfo_mcu_strip (target se fl mcu : List Nat) (s1 s2 : Nat)
    (htarget : target.length = 4)
    (hse : se.length ≤ 255) (hfl : fl.length ≤ 255) (hmcu : mcu.length ≤ 255)
    (hstatus : s1 * 256 + s2 ≠ 0x6e00) :
    deviceInfo (target ++ se.length :: (se ++ fl.length :: (fl ++ mcu.length :: (mcu ++ [s1, s2])))) =
      DeviceInfoResult.info (s1 * 256 + s2) (errorCodeToString (s1 * 256 + s2))
        (toHexString target) (asciiToString se) (toHexString fl)
        (asciiToString (if mcu.getLast? = some 0 then mcu.dropLast else mcu)) := by
  simp only [deviceInfo]
  have hdropS : List.drop ((target ++ se.length :: (se ++ fl.length :: (fl ++ mcu.length :: (mcu ++ [s1, s2])))).length - 2) (target ++ se.length :: (se ++ fl.length :: (fl ++ mcu.length :: (mcu ++ [s1, s2])))) = [s1, s2] := by
    have e : target ++ se.length :: (se ++ fl.length :: (fl ++ mcu.length :: (mcu ++ [s1, s2]))) = (target ++ se.length :: (se ++ fl.length :: (fl ++ mcu.length :: mcu))) ++ [s1, s2] := by
      simp
    rw [e]
    exact List.drop_left' (by simp; omega)
  have hg4 : (target ++ se.length :: (se ++ fl.length :: (fl ++ mcu.length :: (mcu ++ [s1, s2])))).getD 4 0 = se.length :=
    getD_append_length target (se ++ fl.length :: (fl ++ mcu.length :: (mcu ++ [s1, s2]))) se.length 0 4 htarget
  have htake4 : List.take 4 (target ++ se.length :: (se ++ fl.length :: (fl ++ mcu.length :: (mcu ++ [s1, s2])))) = target := List.take_left' htarget
  have hd5 : List.drop (4 + 1) (target ++ se.length :: (se ++ fl.length :: (fl ++ mcu.length :: (mcu ++ [s1, s2])))) = se ++ fl.length :: (fl ++ mcu.length :: (mcu ++ [s1, s2])) := by
    have e : target ++ se.length :: (se ++ fl.length :: (fl ++ mcu.length :: (mcu ++ [s1, s2]))) = (target ++ [se.length]) ++ (se ++ fl.length :: (fl ++ mcu.length :: (mcu ++ [s1, s2]))) := by simp
    rw [e]
    exact List.drop_left' (by simp [htarget])
  have htakese : List.take se.length (se ++ fl.length :: (fl ++ mcu.length :: (mcu ++ [s1, s2]))) = se := List.take_left' rfl
  have hg5 : (target ++ se.length :: (se ++ fl.length :: (fl ++ mcu.length :: (mcu ++ [s1, s2])))).getD (4 + 1 + se.length) 0 = fl.length := by
    have e : target ++ se.length :: (se ++ fl.length :: (fl ++ mcu.length :: (mcu ++ [s1, s2]))) = (target ++ se.length :: se) ++ fl.length :: (fl ++ mcu.length :: (mcu ++ [s1, s2])) := by simp
    rw [e]
    exact getD_append_length _ _ _ 0 _ (by simp [htarget]; omega)
  have hd6 : List.drop (4 + 1 + se.length + 1) (target ++ se.length :: (se ++ fl.length :: (fl ++ mcu.length :: (mcu ++ [s1, s2])))) = fl ++ mcu.length :: (mcu ++ [s1, s2]) := by
    have e : target ++ se.length :: (se ++ fl.length :: (fl ++ mcu.length :: (mcu ++ [s1, s2]))) = (target ++ se.length :: (se ++ [fl.length])) ++ (fl ++ mcu.length :: (mcu ++ [s1, s2])) := by simp
    rw [e]
    exact List.drop_left' (by simp [htarget]; omega)
  have htakefl : List.take fl.length (fl ++ mcu.length :: (mcu ++ [s1, s2])) = fl := List.take_left' rfl
  have hg6 : (target ++ se.length :: (se ++ fl.length :: (fl ++ mcu.length :: (mcu ++ [s1, s2])))).getD (4 + 1 + se.length + 1 + fl.length) 0 = mcu.length := by
    have e : target ++ se.length :: (se ++ fl.length :: (fl ++ mcu.length :: (mcu ++ [s1, s2]))) = (target ++ se.length :: (se ++ fl.length :: fl)) ++ mcu.length :: (mcu ++ [s1, s2]) := by simp
    rw [e]
    exact getD_append_length _ _ _ 0 _ (by simp [htarget]; omega)
  have hd7 : List.drop (4 + 1 + se.length + 1 + fl.length + 1) (target ++ se.length :: (se ++ fl.length :: (fl ++ mcu.length :: (mcu ++ [s1, s2])))) = mcu ++ [s1, s2] := by
    have e : target ++ se.length :: (se ++ fl.length :: (fl ++ mcu.length :: (mcu ++ [s1, s2]))) = (target ++ se.length :: (se ++ fl.length :: (fl ++ [mcu.length]))) ++ (mcu ++ [s1, s2]) := by simp
    rw [e]
    exact List.drop_left' (by simp [htarget]; omega)
  have htakemcu : List.take mcu.length (mcu ++ [s1, s2]) = mcu := List.take_left' rfl
  rw [hdropS]
  simp only [List.getD_cons_zero, List.getD_cons_succ]
  rw [if_neg hstatus, htake4, hg4, hd5, htakese, hg5, hd6, htakefl, hg6, hd7, htakemcu]
  have hscrut : mcu.get? (mcu.length - 1) = mcu.getLast? := by
    rw [List.get?_eq_getElem?, List.getLast?_eq_getElem?]
  rw [hscrut]
  split
  · rename_i heq
    rw [heq, if_pos rfl]
    rw [List.take_append_of_le_length (by omega), ← List.dropLast_eq_take]
  · rename_i hne
    rw [if_neg hne]

theorem C7_deviceInfo_mcu_strip_witness :
    deviceInfo ([49, 0, 0, 4] ++ 3 :: ([49, 46, 54] ++ 1 :: ([166] ++ 4 :: ([49, 46, 49, 0] ++ [0x90, 0x00])))) =
      DeviceInfoResult.info 0x9000 (errorCodeToString 0x9000) (toHexString [49, 0, 0, 4])
        (asciiToString [49, 46, 54]) (toHexString [166]) (asciiToString [49, 46, 49])
    ∧ deviceInfo ([49, 0, 0, 4] ++ 3 :: ([49, 46, 54] ++ 1 :: ([166] ++ 3 :: ([49, 46, 49] ++ [0x90, 0x00])))) =
      DeviceInfoResult.info 0x9000 (errorCodeToString 0x9000) (toHexString [49, 0, 0, 4])
        (asciiToString [49, 46, 54]) (toHexString [166]) (asciiToString [49, 46, 49]) := by
  constructor
  · have h := C7_deviceInfo_mcu_strip [49, 0, 0, 4] [49, 46, 54] [166] [49, 46, 49, 0] 0x90 0x00
      (by decide) (by decide) (by decide) (by decide) (by decide)
    exact h.trans (by decide)
  · have h := C7_deviceInfo_mcu_strip [49, 0, 0, 4] [49, 46, 54] [166] [49, 46, 49] 0x90 0x00
      (by decide) (by decide) (by decide) (by decide) (by decide)
    exact h.trans (by decide)
